import Mathlib

/-!
# Verification of the interaction-capture / script-synthesis pipeline

Shallow embedding of the InnovateHub API generator's core pipeline:
the browser recorder (`src/frontend/src/utils/recorder.js`), the script
generator (`src/backend/services/scriptGenerator.js`), the AI service
(`src/backend/services/aiService.js`), and the parameter extractor
(`src/backend/services/apiExportService.js`).

Conventions:
* JavaScript strings are `String`; `undefined`-able fields are `Option`.
* Wall-clock reads (`Date.now()`, `new Date().toISOString()`) are explicit
  parameters (`now : Nat`, `nowIso : String`); the several `Date.now()` reads
  inside one handler invocation are modelled as a single instant.
* Literal braces inside generated-code templates are written with the
  `\x7b`/`\x7d` escapes and single quotes with `\x27`; the characters are
  exactly those of the JavaScript template literals.
-/

namespace ApiGen

/-! ## String helpers: substring occurrence -/

/-- `s` occurs as a contiguous substring of `t`. -/
def appearsIn (s t : String) : Prop := ∃ a b : String, t = a ++ s ++ b

/-- Boolean prefix test on character lists. -/
def isPrefixChars : List Char → List Char → Bool
  | [], _ => true
  | _ :: _, [] => false
  | a :: as, b :: bs => a = b && isPrefixChars as bs

/-- Boolean substring test on character lists. -/
def hasSubChars (n : List Char) : List Char → Bool
  | [] => isPrefixChars n []
  | c :: t => isPrefixChars n (c :: t) || hasSubChars n t

/-- Boolean substring test on strings; models JavaScript `String.includes`. -/
def jsIncludes (hay needle : String) : Bool := hasSubChars needle.data hay.data

/-- JavaScript whitespace for `String.prototype.trim` (the common cases). -/
def isJsSpace (c : Char) : Bool :=
  c = ' ' || c = '\t' || c = '\n' || c = '\r' || c = '\x0b' || c = '\x0c'

/-- `String.prototype.trim`: strip leading and trailing whitespace. -/
def jsTrim (s : String) : String :=
  ⟨((s.data.dropWhile isJsSpace).reverse.dropWhile isJsSpace).reverse⟩

/-! ## Data model: interactions (`recorder.js` record shapes)

The recorder emits duck-typed objects; we model them with one structure whose
absent fields are `none`.  `coordinates` is the click `{x, y}` pair; `x`/`y`
are the scroll offsets; `relativeTime` is `Date.now() - startTime`. -/

structure Interaction where
  action : String
  url : Option String := none
  selector : Option String := none
  element : Option String := none
  text : Option String := none
  inputType : Option String := none
  key : Option String := none
  coordinates : Option (Int × Int) := none
  x : Option Nat := none
  y : Option Nat := none
  timestamp : Nat := 0
  relativeTime : Nat := 0
deriving DecidableEq, Repr

/-- A DOM element as observed by `generateSelector` in `recorder.js`:
`tagName`, `id`, `dataset.testid`, the `name` property (`nameAttr` here),
`className`, the `aria-label` attribute, `placeholder`, `textContent`, the
input `type` property (`inputType`), `value`, the element's position among
its parent's children (`childIndex`, 1-based as produced by
`siblings.indexOf(element) + 1`), and the parent element.  String-valued
attributes that may be absent are modelled as `""` (JavaScript falsy). -/
inductive Element where
  | mk (tagName id testid nameAttr className ariaLabel placeholder textContent
        inputType value : String) (childIndex : Nat) (parent : Option Element)

def Element.tagName : Element → String | .mk t _ _ _ _ _ _ _ _ _ _ _ => t
def Element.id : Element → String | .mk _ i _ _ _ _ _ _ _ _ _ _ => i
def Element.testid : Element → String | .mk _ _ d _ _ _ _ _ _ _ _ _ => d
def Element.nameAttr : Element → String | .mk _ _ _ n _ _ _ _ _ _ _ _ => n
def Element.className : Element → String | .mk _ _ _ _ c _ _ _ _ _ _ _ => c
def Element.ariaLabel : Element → String | .mk _ _ _ _ _ a _ _ _ _ _ _ => a
def Element.placeholder : Element → String | .mk _ _ _ _ _ _ p _ _ _ _ _ => p
def Element.textContent : Element → String | .mk _ _ _ _ _ _ _ t _ _ _ _ => t
def Element.inputType : Element → String | .mk _ _ _ _ _ _ _ _ it _ _ _ => it
def Element.value : Element → String | .mk _ _ _ _ _ _ _ _ _ v _ _ => v
def Element.childIndex : Element → Nat | .mk _ _ _ _ _ _ _ _ _ _ ci _ => ci
def Element.parent : Element → Option Element | .mk _ _ _ _ _ _ _ _ _ _ _ p => p

/-- `e` with its `value` property replaced (everything else unchanged). -/
def Element.withValue : Element → String → Element
  | .mk t i d n c a p tx it _ ci pr, v => .mk t i d n c a p tx it v ci pr

/-- First "meaningful" CSS class: split `className` on spaces, keep tokens
that are nonempty, do not start with `_`, and have length `> 2`
(`recorder.js` lines 184-192). -/
def firstMeaningfulClass (className : String) : Option String :=
  ((className.splitOn " ").filter fun cls =>
    cls ≠ "" && !cls.startsWith "_" && cls.length > 2).head?

/-- The priority chain of `generateSelector` (`recorder.js` lines 166-222):
id → data-testid → name → meaningful class → aria-label → placeholder →
button/link text content → parent selector with `nth-child` → bare tag.
The recursive parent resolution is passed in as `parentSel`; the
`element === document` guard is not modelled, since `Element` only
represents proper DOM elements, which is all the handlers ever pass. -/
def selectorChain (tag id testid nameAttr className aria placeholder
    textContent : String) (ci : Nat) (parentSel : Option String) : String :=
  if id ≠ "" then "#" ++ id
  else if testid ≠ "" then "[data-testid=\"" ++ testid ++ "\"]"
  else if nameAttr ≠ "" then "[name=\"" ++ nameAttr ++ "\"]"
  else match firstMeaningfulClass className with
    | some cls => "." ++ cls
    | none =>
      if aria ≠ "" then "[aria-label=\"" ++ aria ++ "\"]"
      else if placeholder ≠ "" then "[placeholder=\"" ++ placeholder ++ "\"]"
      else
        let byText : Option String :=
          if (tag = "BUTTON" || tag = "A") && textContent ≠ "" then
            let text := jsTrim textContent
            if text.length < 50 then
              some (tag.toLower ++ ":contains(\"" ++ text ++ "\")")
            else none
          else none
        match byText with
        | some s => s
        | none =>
          match parentSel with
          | some ps =>
            ps ++ " > " ++ tag.toLower ++ ":nth-child(" ++ toString ci ++ ")"
          | none => tag.toLower

def generateSelector : Element → String
  | .mk tag id testid nameAttr className aria placeholder textContent _ _ ci
      parent =>
    selectorChain tag id testid nameAttr className aria placeholder textContent
      ci (match parent with
          | some p => some (generateSelector p)
          | none => none)

/-! ## The capture engine (`BrowserRecorder`) -/

/-- Mutable recorder state (`recorder.js` constructor).  The listener array is
not modelled explicitly: listeners are attached exactly while
`isRecording = true` (attached on start, removed on stop), which is how the
event step function below is gated. -/
structure RecorderState where
  isRecording : Bool
  interactions : List Interaction
  startTime : Nat
  currentUrl : String
deriving Repr

/-- Initial state: the constructor with the page's current location. -/
def initRecorder (locationHref : String) : RecorderState :=
  { isRecording := false, interactions := [], startTime := 0
    currentUrl := locationHref }

/-- `addInteraction` (`recorder.js` lines 47-55): appends to the buffer with a
fresh timestamp and `relativeTime = Date.now() - startTime`, and is a no-op
when not recording.  The two `Date.now()` reads are collapsed to `now`. -/
def addInteraction (st : RecorderState) (now : Nat) (i : Interaction) :
    RecorderState :=
  if st.isRecording then
    { st with interactions := st.interactions ++
        [{ i with timestamp := now, relativeTime := now - st.startTime }] }
  else st

/-- `startRecording` (`recorder.js` lines 16-33): no-op while recording;
otherwise clears the buffer, snapshots the clock and the location, records the
initial `navigation` interaction, and attaches the listeners. -/
def startRecording (st : RecorderState) (now : Nat) (locationHref : String) :
    RecorderState :=
  if st.isRecording then st
  else
    addInteraction
      { st with
          isRecording := true
          interactions := []
          startTime := now
          currentUrl := locationHref }
      now { action := "navigation", url := some locationHref }

/-- `stopRecording` (`recorder.js` lines 36-44): no-op (returning `[]`) while
idle; otherwise detaches listeners and freezes the buffer.  The returned trace
is `interactions` of the resulting state. -/
def stopRecording (st : RecorderState) : RecorderState :=
  if st.isRecording then { st with isRecording := false } else st

/-- `clickHandler` (`recorder.js` lines 60-72). -/
def clickHandler (st : RecorderState) (now : Nat) (target : Element)
    (clientX clientY : Int) : RecorderState :=
  addInteraction st now
    { action := "click", selector := some (generateSelector target)
      element := some target.tagName.toLower
      coordinates := some (clientX, clientY)
      text := some (jsTrim target.textContent) }

/-- `inputHandler` (`recorder.js` lines 75-94): a password-kind input records
the literal sentinel `[PASSWORD]`; any other kind records the typed value. -/
def inputHandler (st : RecorderState) (now : Nat) (target : Element) :
    RecorderState :=
  if target.inputType = "password" then
    addInteraction st now
      { action := "type", selector := some (generateSelector target)
        element := some target.tagName.toLower, text := some "[PASSWORD]"
        inputType := some target.inputType }
  else
    addInteraction st now
      { action := "type", selector := some (generateSelector target)
        element := some target.tagName.toLower, text := some target.value
        inputType := some target.inputType }

/-- `submitHandler` (`recorder.js` lines 97-103). -/
def submitHandler (st : RecorderState) (now : Nat) (target : Element) :
    RecorderState :=
  addInteraction st now
    { action := "submit", selector := some (generateSelector target)
      element := some target.tagName.toLower }

/-- `scrollHandler` (`recorder.js` lines 106-112). -/
def scrollHandler (st : RecorderState) (now : Nat) (scrollX scrollY : Nat) :
    RecorderState :=
  addInteraction st now { action := "scroll", x := some scrollX, y := some scrollY }

/-- `navigationHandler` (`recorder.js` lines 115-124): records a `navigation`
only when the URL actually changed. -/
def navigationHandler (st : RecorderState) (now : Nat) (locationHref : String) :
    RecorderState :=
  if locationHref ≠ st.currentUrl then
    addInteraction { st with currentUrl := locationHref } now
      { action := "navigation", url := some locationHref }
  else st

/-- `keyHandler` (`recorder.js` lines 127-136): fixed allow-list of keys. -/
def keyHandler (st : RecorderState) (now : Nat) (key : String)
    (target : Element) : RecorderState :=
  if key = "Enter" || key = "Tab" || key = "Escape" then
    addInteraction st now
      { action := "keypress", key := some key
        selector := some (generateSelector target) }
  else st

/-- One capture operation: an explicit start/stop call or a DOM event with the
wall-clock reading at which its handler runs. -/
inductive RecEvent where
  | start (now : Nat) (locationHref : String)
  | click (now : Nat) (target : Element) (clientX clientY : Int)
  | input (now : Nat) (target : Element)
  | submit (now : Nat) (target : Element)
  | scroll (now : Nat) (scrollX scrollY : Nat)
  | popstate (now : Nat) (locationHref : String)
  | keydown (now : Nat) (key : String) (target : Element)
  | stop

/-- Apply one operation.  DOM-event handlers only run while their listeners
are attached, i.e. while recording (`attachEventListeners` on start,
`removeEventListeners` on stop). -/
def stepRecorder (st : RecorderState) : RecEvent → RecorderState
  | .start now url => startRecording st now url
  | .stop => stopRecording st
  | .click now t cx cy => if st.isRecording then clickHandler st now t cx cy else st
  | .input now t => if st.isRecording then inputHandler st now t else st
  | .submit now t => if st.isRecording then submitHandler st now t else st
  | .scroll now sx sy => if st.isRecording then scrollHandler st now sx sy else st
  | .popstate now url => if st.isRecording then navigationHandler st now url else st
  | .keydown now k t => if st.isRecording then keyHandler st now k t else st

/-- Run a sequence of capture operations. -/
def runRecorder (st : RecorderState) : List RecEvent → RecorderState :=
  List.foldl stepRecorder st

/-- The clock reading carried by an operation (`stop` reads no clock). -/
def RecEvent.clock : RecEvent → Option Nat
  | .start now _ => some now
  | .click now _ _ _ => some now
  | .input now _ => some now
  | .submit now _ => some now
  | .scroll now _ _ => some now
  | .popstate now _ => some now
  | .keydown now _ _ => some now
  | .stop => none

/-- The clock readings along a run are non-decreasing and bounded below by
`c` (wall-clock monotonicity). -/
def clocksMono : Nat → List RecEvent → Prop
  | _, [] => True
  | c, e :: rest =>
    match e.clock with
    | none => clocksMono c rest
    | some n => c ≤ n ∧ clocksMono n rest

/-! ## Script synthesizer (`scriptGenerator.js`)

Wall-clock reads are explicit: `nowIso` stands for `new Date().toISOString()`
and `nowMs` for `Date.now()`.  JavaScript template interpolation of an absent
(`undefined`) field prints the string `undefined`, modelled by `jsShow`. -/

/-- Template interpolation of a possibly-`undefined` string field. -/
def jsShow (o : Option String) : String := o.getD "undefined"

/-- Template interpolation of a possibly-`undefined` numeric field. -/
def jsShowNat : Option Nat → String
  | some n => toString n
  | none => "undefined"

/-- Concatenation of a list of snippets; models the successive
`script += ...` appends of the `forEach` loops. -/
def concatAll : List String → String
  | [] => ""
  | s :: rest => s ++ concatAll rest

/-- `Array.prototype.join(sep)`; models `.join('\n\n')`. -/
def joinWith (sep : String) : List String → String
  | [] => ""
  | [s] => s
  | s :: rest => s ++ sep ++ joinWith sep rest

/-- The step-marker prefix `    // Step ${index + 1}: ` that every
per-interaction snippet of the Playwright/Selenium/Cypress generators
starts with. -/
def stepTag (index : Nat) : String :=
  "    // Step " ++ toString (index + 1) ++ ": "

/-- `generateInteractionCode` (`scriptGenerator.js` lines 132-199): one
Playwright statement block per interaction, with the `[PASSWORD]` sentinel
replaced by a `config.password` reference and a marker comment for
unsupported kinds. -/
def generateInteractionCode (i : Interaction) (index : Nat) : String :=
  let stepComment := stepTag index ++ i.action
  if i.action = "navigation" then
    stepComment ++ ("\n    console.log(\x27Navigating to: " ++ jsShow i.url ++
      "\x27);\n    await page.goto(\x27" ++ jsShow i.url ++
      "\x27, \x7b waitUntil: \x27networkidle\x27 \x7d);\n    await page.waitForLoadState(\x27domcontentloaded\x27);\n\n")
  else if i.action = "click" then
    stepComment ++ ("\n    console.log(\x27Clicking element: " ++ jsShow i.selector ++
      "\x27);\n    await page.waitForSelector(\x27" ++ jsShow i.selector ++
      "\x27, \x7b timeout: 10000 \x7d);\n    await page.click(\x27" ++ jsShow i.selector ++
      "\x27);\n    await page.waitForTimeout(500); // Brief pause after click\n\n")
  else if i.action = "type" then
    let text := if i.text = some "[PASSWORD]"
      then "$\x7bconfig.password || \"[PASSWORD]\"\x7d" else jsShow i.text
    stepComment ++ ("\n    console.log(\x27Typing into element: " ++ jsShow i.selector ++
      "\x27);\n    await page.waitForSelector(\x27" ++ jsShow i.selector ++
      "\x27, \x7b timeout: 10000 \x7d);\n    await page.fill(\x27" ++ jsShow i.selector ++
      "\x27, \x27" ++ text ++ "\x27);\n\n")
  else if i.action = "scroll" then
    stepComment ++ ("\n    console.log(\x27Scrolling to position: " ++ jsShowNat i.x ++
      ", " ++ jsShowNat i.y ++
      "\x27);\n    await page.evaluate(() => window.scrollTo(" ++ toString (i.x.getD 0) ++
      ", " ++ toString (i.y.getD 0) ++ "));\n    await page.waitForTimeout(300);\n\n")
  else if i.action = "wait" then
    stepComment ++ ("\n    console.log(\x27Waiting for element: " ++ jsShow i.selector ++
      "\x27);\n    await page.waitForSelector(\x27" ++ jsShow i.selector ++
      "\x27, \x7b timeout: 15000 \x7d);\n\n")
  else if i.action = "keypress" then
    stepComment ++ ("\n    console.log(\x27Pressing key: " ++ jsShow i.key ++
      "\x27);\n    await page.keyboard.press(\x27" ++ jsShow i.key ++ "\x27);\n\n")
  else if i.action = "submit" then
    stepComment ++ ("\n    console.log(\x27Submitting form: " ++ jsShow i.selector ++
      "\x27);\n    await page.waitForSelector(\x27" ++ jsShow i.selector ++
      "\x27, \x7b timeout: 10000 \x7d);\n    await page.click(\x27" ++ jsShow i.selector ++
      "\x27);\n    await page.waitForLoadState(\x27networkidle\x27);\n\n")
  else
    stepComment ++ ("\n    // Unsupported action: " ++ i.action ++ "\n\n")

/-- Fixed prologue of the basic Playwright script (before the interaction
blocks), with the creation timestamp and interaction count interpolated. -/
def playwrightHeader (nowIso : String) (count : Nat) : String :=
  "const \x7b chromium \x7d = require(\x27playwright\x27);\n\n/**\n * Generated Browser Automation Script\n * Created: " ++
  nowIso ++ "\n * Interactions: " ++ toString count ++
  "\n */\n\nasync function runAutomation(config = \x7b\x7d) \x7b\n  const browser = await chromium.launch(\x7b \n    headless: config.headless ?? false,\n    slowMo: config.slowMo ?? 100\n  \x7d);\n  \n  const context = await browser.newContext(\x7b\n    viewport: \x7b width: 1280, height: 720 \x7d,\n    userAgent: config.userAgent || \x27Mozilla/5.0 (Windows NT 10.0; Win64; x64) AppleWebKit/537.36\x27\n  \x7d);\n  \n  const page = await context.newPage();\n  \n  try \x7b\n"

/-- Fixed epilogue of the basic Playwright script. -/
def playwrightFooter : String :=
  "\n    console.log(\x27✅ Automation completed successfully\x27);\n    \n  \x7d catch (error) \x7b\n    console.error(\x27❌ Automation failed:\x27, error);\n    throw error;\n  \x7d finally \x7b\n    await browser.close();\n  \x7d\n\x7d\n\n// Export for use as module\nmodule.exports = \x7b runAutomation \x7d;\n\n// Run directly if called from command line\nif (require.main === module) \x7b\n  runAutomation()\n    .then(() => console.log(\x27Script execution completed\x27))\n    .catch(error => \x7b\n      console.error(\x27Script execution failed:\x27, error);\n      process.exit(1);\n    \x7d);\n\x7d"

/-- `generateBasicPlaywrightScript` (`scriptGenerator.js` lines 73-127). -/
def generateBasicPlaywrightScript (nowIso : String) (ints : List Interaction) :
    String :=
  playwrightHeader nowIso ints.length ++
  concatAll (ints.enum.map fun p => generateInteractionCode p.2 p.1) ++
  playwrightFooter

/-- Per-interaction snippet of the Puppeteer generator
(`scriptGenerator.js` lines 224-247): **no default arm** — any action other
than navigation/click/type contributes nothing. -/
def puppeteerStep (i : Interaction) (index : Nat) : String :=
  if i.action = "navigation" then
    "    // Step " ++ toString (index + 1) ++ ": Navigate\n    await page.goto(\x27" ++
    jsShow i.url ++ "\x27, \x7b waitUntil: \x27networkidle2\x27 \x7d);\n\n"
  else if i.action = "click" then
    "    // Step " ++ toString (index + 1) ++ ": Click\n    await page.waitForSelector(\x27" ++
    jsShow i.selector ++ "\x27);\n    await page.click(\x27" ++ jsShow i.selector ++
    "\x27);\n\n"
  else if i.action = "type" then
    "    // Step " ++ toString (index + 1) ++ ": Type\n    await page.waitForSelector(\x27" ++
    jsShow i.selector ++ "\x27);\n    await page.type(\x27" ++ jsShow i.selector ++
    "\x27, \x27" ++ jsShow i.text ++ "\x27);\n\n"
  else ""

/-- `generatePuppeteerScript` (`scriptGenerator.js` lines 204-259). -/
def generatePuppeteerScript (nowIso : String) (ints : List Interaction) : String :=
  ("const puppeteer = require(\x27puppeteer\x27);\n\n/**\n * Puppeteer Automation Script\n * Generated: " ++
   nowIso ++
   "\n */\n\nasync function runAutomation() \x7b\n  const browser = await puppeteer.launch(\x7b \n    headless: false,\n    slowMo: 100\n  \x7d);\n  \n  const page = await browser.newPage();\n  await page.setViewport(\x7b width: 1280, height: 720 \x7d);\n  \n  try \x7b\n") ++
  concatAll (ints.enum.map fun p => puppeteerStep p.2 p.1) ++
  "  \x7d catch (error) \x7b\n    console.error(\x27Automation failed:\x27, error);\n  \x7d finally \x7b\n    await browser.close();\n  \x7d\n\x7d\n\nrunAutomation();"

/-- Per-interaction snippet of the Selenium generator
(`scriptGenerator.js` lines 276-292), default arm included. -/
def seleniumStep (i : Interaction) (index : Nat) : String :=
  if i.action = "navigation" then
    stepTag index ++ ("Navigate\n    await driver.get(\x27" ++ jsShow i.url ++ "\x27);")
  else if i.action = "click" then
    stepTag index ++ ("Click\n    await driver.wait(until.elementLocated(By.css(\x27" ++
      jsShow i.selector ++ "\x27)), 10000);\n    await driver.findElement(By.css(\x27" ++
      jsShow i.selector ++ "\x27)).click();")
  else if i.action = "type" then
    stepTag index ++ ("Type\n    await driver.wait(until.elementLocated(By.css(\x27" ++
      jsShow i.selector ++ "\x27)), 10000);\n    await driver.findElement(By.css(\x27" ++
      jsShow i.selector ++ "\x27)).sendKeys(\x27" ++ jsShow i.text ++ "\x27);")
  else
    stepTag index ++ i.action

/-- `generateSeleniumScript` (`scriptGenerator.js` lines 264-301). -/
def generateSeleniumScript (nowIso : String) (ints : List Interaction) : String :=
  ("const \x7b Builder, By, until \x7d = require(\x27selenium-webdriver\x27);\n\n/**\n * Selenium WebDriver Automation Script\n * Generated: " ++
   nowIso ++
   "\n */\n\nasync function runAutomation() \x7b\n  const driver = await new Builder().forBrowser(\x27chrome\x27).build();\n  \n  try \x7b\n") ++
  joinWith "\n\n" (ints.enum.map fun p => seleniumStep p.2 p.1) ++
  "\n  \x7d catch (error) \x7b\n    console.error(\x27Automation failed:\x27, error);\n  \x7d finally \x7b\n    await driver.quit();\n  \x7d\n\x7d\n\nrunAutomation();"

/-- Per-interaction snippet of the Cypress generator
(`scriptGenerator.js` lines 314-328), default arm included. -/
def cypressStep (i : Interaction) (index : Nat) : String :=
  if i.action = "navigation" then
    stepTag index ++ ("Navigate\n    cy.visit(\x27" ++ jsShow i.url ++ "\x27);")
  else if i.action = "click" then
    stepTag index ++ ("Click\n    cy.get(\x27" ++ jsShow i.selector ++ "\x27).click();")
  else if i.action = "type" then
    stepTag index ++ ("Type\n    cy.get(\x27" ++ jsShow i.selector ++ "\x27).type(\x27" ++
      jsShow i.text ++ "\x27);")
  else
    stepTag index ++ i.action

/-- `generateCypressScript` (`scriptGenerator.js` lines 306-331). -/
def generateCypressScript (nowIso : String) (ints : List Interaction) : String :=
  ("/**\n * Cypress E2E Test\n * Generated: " ++ nowIso ++
   "\n */\n\ndescribe(\x27Recorded User Flow\x27, () => \x7b\n  it(\x27should execute recorded interactions\x27, () => \x7b\n") ++
  joinWith "\n\n" (ints.enum.map fun p => cypressStep p.2 p.1) ++
  "\n  \x7d);\n\x7d);"

/-- Per-interaction fixed cost of `estimateRuntime`
(`scriptGenerator.js` lines 383-402).  Note: a `type` interaction whose
`text` is absent or empty (JavaScript falsy) costs 500 ms, not `0 * 50`. -/
def interactionCost (i : Interaction) : Nat :=
  if i.action = "navigation" then 3000
  else if i.action = "click" then 500
  else if i.action = "type" then
    match i.text with
    | some t => if t ≠ "" then t.length * 50 else 500
    | none => 500
  else if i.action = "scroll" then 300
  else if i.action = "wait" then 2000
  else 200

/-- `estimateRuntime` (`scriptGenerator.js` lines 380-406): accumulate the
per-interaction costs and report `Math.ceil(ms / 1000)` with an `s` suffix. -/
def estimateRuntime (ints : List Interaction) : String :=
  toString ((ints.foldl (fun acc i => acc + interactionCost i) 0 + 999) / 1000) ++ "s"

/-! ## AI analysis object and the configuration file -/

/-- The analysis object consumed by `generateConfigFile`
(`analysis.workflow`, `analysis.complexity`, `analysis.security`).  The
`security` field may be absent (`analysis.security || []`). -/
structure Analysis where
  workflow : String
  complexity : String
  security : Option (List String)
  issues : List String := []
  optimizations : List String := []
deriving DecidableEq, Repr

/-- `getDefaultAnalysis` (`aiService.js` lines 281-289). -/
def getDefaultAnalysis (ints : List Interaction) : Analysis :=
  { workflow := "Automation workflow with " ++ toString ints.length ++ " interactions"
    issues := ["Manual review required - AI analysis unavailable"]
    optimizations := ["Add explicit waits", "Improve error handling"]
    security := some ["Review for sensitive data handling"]
    complexity := if ints.length > 10 then "high"
      else if ints.length > 5 then "medium" else "low" }

/-- `[...new Set(xs)]`: deduplicate keeping the first occurrence, preserving
insertion order. -/
def dedupFirstAux [DecidableEq α] (seen : List α) : List α → List α
  | [] => []
  | a :: rest =>
    if a ∈ seen then dedupFirstAux seen rest
    else a :: dedupFirstAux (a :: seen) rest

/-- `[...new Set(xs)]` on a list. -/
def dedupFirst [DecidableEq α] (l : List α) : List α := dedupFirstAux [] l

structure ConfigAutomation where
  name : String
  description : String
  complexity : String
  estimatedDuration : String
deriving DecidableEq, Repr

structure ConfigTargets where
  urls : List (Option String)
  selectors : List String
deriving DecidableEq, Repr

structure ConfigSecurity where
  passwordFields : Nat
  sensitiveData : List String
deriving DecidableEq, Repr

/-- The object returned by `generateConfigFile`; the constant `browser` and
`optimization` blocks are omitted (they carry no trace-dependent data). -/
structure ConfigFile where
  automation : ConfigAutomation
  targets : ConfigTargets
  security : ConfigSecurity
deriving DecidableEq, Repr

/-- `generateConfigFile` (`scriptGenerator.js` lines 336-375); `nowMs` stands
for the `Date.now()` read in the automation name. -/
def generateConfigFile (nowMs : Nat) (ints : List Interaction)
    (analysis : Analysis) : ConfigFile :=
  { automation :=
      { name := "Automation_" ++ toString nowMs
        description := analysis.workflow
        complexity := analysis.complexity
        estimatedDuration := estimateRuntime ints }
    targets :=
      { urls := dedupFirst ((ints.filter fun i => i.action = "navigation").map
          fun i => i.url)
        selectors := dedupFirst (ints.filterMap fun i =>
          match i.selector with
          | some s => if s ≠ "" then some s else none
          | none => none) }
    security :=
      { passwordFields := (ints.filter fun i => i.text = some "[PASSWORD]").length
        sensitiveData := analysis.security.getD [] } }

/-- The synthesized per-framework sources plus the configuration object, as
produced inside `generateAutomationPackage` for one trace.  `nowIso` and
`nowMs` are the wall-clock readings of the generation instant. -/
structure SynthesisOutput where
  playwrightBasic : String
  puppeteer : String
  selenium : String
  cypress : String
  configuration : ConfigFile
deriving DecidableEq, Repr

/-- Bundle the four framework generators and the configuration generator. -/
def synthesize (nowIso : String) (nowMs : Nat) (analysis : Analysis)
    (ints : List Interaction) : SynthesisOutput :=
  { playwrightBasic := generateBasicPlaywrightScript nowIso ints
    puppeteer := generatePuppeteerScript nowIso ints
    selenium := generateSeleniumScript nowIso ints
    cypress := generateCypressScript nowIso ints
    configuration := generateConfigFile nowMs ints analysis }

/-! ## AI service (`aiService.js`)

The AI collaborator is an external, possibly-failing network call.  It is
modelled by an oracle `call : String → Except String String` mapping the model
name to the response (or failure) of `this.openai.chat.completions.create`;
the prompt text and sampling options influence only the external service, not
the control flow verified here, so they are not carried.  Likewise
`parseAnalysisResponse` (a JSON-recovery chain over free-form model output
that never throws) is an oracle `parse : String → Analysis`. -/

/-- The redundancy chain of models (`aiService.js` lines 10-14). -/
def aiModels : List String := ["gemini-2.5-flash", "gpt-4.1-mini", "gpt-4.1-nano"]

/-- Mutable service state: the rotating model index and the response cache
(insertion-ordered, first match wins on lookup). -/
structure AIState where
  currentModelIndex : Nat
  requestCache : List (String × String)

/-- `generateCacheKey` (`aiService.js` lines 215-222) projects each
interaction to `(action, selector, url)` and digests the JSON.  The
base64/slice digest is modelled by a plain delimiter-joined rendering of the
same projection: the claims depend only on key equality for equal
projections, not on the digest bytes. -/
def generateCacheKey (ints : List Interaction) : String :=
  String.intercalate "|"
    (ints.map fun i => i.action ++ "," ++ jsShow i.selector ++ "," ++ jsShow i.url)

/-- `cacheResponse` (`aiService.js` lines 227-235): evict the oldest entry at
capacity 100, then insert. -/
def cacheResponse (st : AIState) (key resp : String) : AIState :=
  let cache := if st.requestCache.length ≥ 100 then st.requestCache.drop 1
    else st.requestCache
  { st with requestCache := cache ++ [(key, resp)] }

/-- The retry loop of `generateEnhancedScript` (`aiService.js` lines 35-56):
try the current model; on failure rotate `currentModelIndex` and, when the
attempt budget (`models.length`) is exhausted, throw
`'All AI models failed. Returning basic script.'`.  Returns the result and
the final model index. -/
def enhanceLoop (call : String → Except String String) (idx : Nat) :
    Nat → Except String String × Nat
  | 0 => (.error "All AI models failed. Returning basic script.", idx)
  | rem + 1 =>
    match call (aiModels.getD idx "") with
    | .ok r => (.ok r, idx)
    | .error _ =>
      let idx' := (idx + 1) % aiModels.length
      if rem = 0 then (.error "All AI models failed. Returning basic script.", idx')
      else enhanceLoop call idx' rem

/-- `generateEnhancedScript` (`aiService.js` lines 23-57): serve from cache
when possible, otherwise run the redundancy loop and cache a success.  A
failure of every model PROPAGATES as an error (despite the message text). -/
def generateEnhancedScript (call : String → Except String String)
    (st : AIState) (ints : List Interaction) :
    Except String String × AIState :=
  let cacheKey := generateCacheKey ints
  match st.requestCache.lookup cacheKey with
  | some cached => (.ok cached, st)
  | none =>
    match enhanceLoop call st.currentModelIndex aiModels.length with
    | (.ok r, idx') =>
      (.ok r, cacheResponse { st with currentModelIndex := idx' } cacheKey r)
    | (.error e, idx') => (.error e, { st with currentModelIndex := idx' })

/-- `analyzeInteractions` (`aiService.js` lines 62-77): one call with the
current model, recovering to `getDefaultAnalysis` on failure.  Never fails. -/
def analyzeInteractions (call : String → Except String String)
    (parse : String → Analysis) (st : AIState) (ints : List Interaction) :
    Analysis :=
  match call (aiModels.getD st.currentModelIndex "") with
  | .ok r => parse r
  | .error _ => getDefaultAnalysis ints

/-- `getDefaultAPIDoc` (`aiService.js` lines 294-314). -/
def getDefaultAPIDoc (ints : List Interaction) : String :=
  "# Browser Automation Script\n\n## Overview\nThis script automates " ++
  toString ints.length ++
  " browser interactions.\n\n## Usage\n```javascript\nconst \x7b chromium \x7d = require(\x27playwright\x27);\n// Run the automation script\n```\n\n## Configuration\n- Modify selectors as needed for your target website\n- Adjust timeouts based on your network conditions\n- Update input values for your specific use case\n\n## Error Handling\nThe script includes basic error handling. Monitor execution and adjust as needed.\n"

/-- `generateAPIDocumentation` of the AI service (`aiService.js` lines
82-97): one call with the current model, recovering to the static default
document on failure.  Never fails. -/
def aiGenerateAPIDocumentation (call : String → Except String String)
    (st : AIState) (ints : List Interaction) : String :=
  match call (aiModels.getD st.currentModelIndex "") with
  | .ok r => r
  | .error _ => getDefaultAPIDoc ints

/-! ## `generateAutomationPackage` (`scriptGenerator.js` lines 15-68) -/

structure PlaywrightScripts where
  basic : String
  enhanced : String
deriving Repr

structure PackageScripts where
  playwright : PlaywrightScripts
  puppeteer : String
  selenium : String
  cypress : String
deriving Repr

/-- The trace-derived metadata block; the caller-supplied `metadata` spread
(`...metadata`) carries opaque caller data and is not modelled. -/
structure PackageMetadata where
  generatedAt : String
  interactionCount : Nat
  complexity : String
  estimatedRuntime : String
deriving Repr

structure AutomationPackage where
  analysis : Analysis
  scripts : PackageScripts
  documentation : String
  configuration : ConfigFile
  metadata : PackageMetadata
deriving Repr

/-- `generateAutomationPackage`: compute the basic script, analyze, enhance
(the one fallible step — its error is caught at line 64 and RETHROWN at line
66, discarding the already-computed basic script), then the alternative
formats, documentation and configuration.  `nowIso`/`nowMs` are the
generation instant's clock readings. -/
def generateAutomationPackage (call : String → Except String String)
    (parse : String → Analysis) (st : AIState) (nowIso : String) (nowMs : Nat)
    (ints : List Interaction) : Except String AutomationPackage × AIState :=
  let basicScript := generateBasicPlaywrightScript nowIso ints
  let analysis := analyzeInteractions call parse st ints
  match generateEnhancedScript call st ints with
  | (.error e, st') => (.error e, st')
  | (.ok enhancedScript, st') =>
    let puppeteerScript := generatePuppeteerScript nowIso ints
    let seleniumScript := generateSeleniumScript nowIso ints
    let cypressScript := generateCypressScript nowIso ints
    let apiDoc := aiGenerateAPIDocumentation call st' ints
    let config := generateConfigFile nowMs ints analysis
    (.ok
      { analysis := analysis
        scripts :=
          { playwright := { basic := basicScript, enhanced := enhancedScript }
            puppeteer := puppeteerScript
            selenium := seleniumScript
            cypress := cypressScript }
        documentation := apiDoc
        configuration := config
        metadata :=
          { generatedAt := nowIso
            interactionCount := ints.length
            complexity := analysis.complexity
            estimatedRuntime := estimateRuntime ints } }, st')

/-! ## Parameter extractor (`apiExportService.js`) -/

/-- A JSON-ish value: parameter examples/defaults are heterogeneous
(strings for captured data, `true`/`30000` for the injected knobs). -/
inductive JSVal where
  | s (v : String)
  | b (v : Bool)
  | n (v : Nat)
deriving DecidableEq, Repr

/-- A derived API parameter (`apiExportService.js` push sites).  Fields absent
from some push sites (`sensitive`, `default`) are `Option`; `example` and
`default` are renamed (`exampleVal`, `defaultVal`) because both words are
reserved in Lean. -/
structure Parameter where
  name : String
  type : String
  description : String
  exampleVal : JSVal
  required : Bool
  sensitive : Option Bool := none
  defaultVal : Option JSVal := none
deriving DecidableEq, Repr

/-- `new URL(u)` succeeds — modelled as the presence of `scheme://` with a
nonempty scheme.  (WHATWG URL parsing is approximated; the extractor only
distinguishes parse success and the query string.) -/
def urlValid (u : String) : Bool :=
  match u.splitOn "://" with
  | s :: _ :: _ => s ≠ ""
  | _ => false

/-- `url.search`: the query part after the first `?` and before any `#`,
with its leading `?`; `""` when absent or empty. -/
def urlSearch (u : String) : String :=
  match u.splitOn "?" with
  | _ :: rest =>
    if rest.isEmpty then ""
    else
      let q := (String.intercalate "?" rest).splitOn "#" |>.headD ""
      if q = "" then "" else "?" ++ q
  | [] => ""

/-- `URLSearchParams` iteration over a `u`'s query: `&`-separated segments,
empty segments skipped, each split at its first `=` (key gets `""` when no
`=`).  Percent-decoding is not modelled.  Invalid URLs yield `[]` (the
`try/catch` in `extractAPIParameters`). -/
def queryPairs (u : String) : List (String × String) :=
  if urlValid u then
    let s := urlSearch u
    if s = "" then []
    else
      ((s.drop 1).splitOn "&").filterMap fun seg =>
        if seg = "" then none
        else match seg.splitOn "=" with
          | [] => none
          | [k] => some (k, "")
          | k :: vs => some (k, String.intercalate "=" vs)
  else []

/-- The regex captures `/name="([^"]+)"/` and `/id="([^"]+)"/`: scan for the
first position where the pattern, a nonempty run of non-quote characters, and
a closing quote all match; later positions are tried when the tail fails. -/
def matchQuotedAux (pat : List Char) : List Char → Option String
  | [] => none
  | c :: t =>
    if isPrefixChars pat (c :: t) then
      let rest := List.drop pat.length (c :: t)
      let cap := rest.takeWhile fun ch => ch ≠ '"'
      if cap.length ≠ 0 ∧ cap.length < rest.length then some ⟨cap⟩
      else matchQuotedAux pat t
    else matchQuotedAux pat t

def matchQuoted (pat s : String) : Option String := matchQuotedAux pat.data s.data

/-- `extractFieldName` (`apiExportService.js` lines 626-634): recover a field
name only from a literal `name="..."` or `id="..."` fragment of the selector
string; otherwise the generic placeholder `field`. -/
def extractFieldName (selector : String) : String :=
  if jsIncludes selector "name=" then (matchQuoted "name=\"" selector).getD "field"
  else if jsIncludes selector "id=" then (matchQuoted "id=\"" selector).getD "field"
  else "field"

/-- Models `!isNaN(value) && !isNaN(parseFloat(value))` for ordinary decimal
literals: optional surrounding whitespace and sign, digits with an optional
fractional part (or a bare fractional part), optional exponent.  Exotic
coercions (hex literals, `Infinity`) are not modelled. -/
def jsIsNumeric (s : String) : Bool :=
  let t := (jsTrim s).data
  let t := match t with
    | '+' :: r => r
    | '-' :: r => r
    | r => r
  let intPart := t.takeWhile Char.isDigit
  let expOk : List Char → Bool := fun r =>
    match r with
    | [] => true
    | e :: r2 =>
      (e = 'e' || e = 'E') &&
        (let r3 := match r2 with
          | '+' :: x => x
          | '-' :: x => x
          | x => x
        !r3.isEmpty && r3.all Char.isDigit)
  match t.dropWhile Char.isDigit with
  | [] => !intPart.isEmpty
  | '.' :: r2 =>
    let frac := r2.takeWhile Char.isDigit
    (!intPart.isEmpty || !frac.isEmpty) && expOk (r2.dropWhile Char.isDigit)
  | r => !intPart.isEmpty && expOk r

/-- `inferParameterType` (`apiExportService.js` lines 636-641).  The
`typeof value === 'boolean'` arm is unreachable here: the extractor only ever
passes `interaction.text`, a string. -/
def inferParameterType (value : String) : String :=
  if jsIsNumeric value then "number"
  else if value.data.contains '@' then "email"
  else "string"

/-- A parameter pushed for one query-string pair of a navigation URL
(`apiExportService.js` lines 82-88). -/
def navParam (key value : String) : Parameter :=
  { name := key, type := "string", description := "URL parameter from navigation"
    exampleVal := .s value, required := false }

/-- A parameter pushed for one non-sentinel `type` interaction
(`apiExportService.js` lines 99-106). -/
def typeParam (selector text : String) (inputType : Option String) : Parameter :=
  { name := extractFieldName selector
    type := inferParameterType text
    description := "Input field: " ++ selector
    exampleVal := .s text
    required := true
    sensitive := some (inputType == some "password") }

/-- The parameters contributed by one interaction (the `switch` body of
`extractAPIParameters`).  A `type` interaction's selector is interpolated as
`jsShow` renders it; the recorder always supplies a selector for `type`
interactions, so the `undefined` rendering never feeds the real code's
`selector.includes` crash path. -/
def interactionParams (i : Interaction) : List Parameter :=
  if i.action = "navigation" then
    (queryPairs (jsShow i.url)).map fun p => navParam p.1 p.2
  else if i.action = "type" then
    match i.text with
    | some t =>
      if t ≠ "" ∧ t ≠ "[PASSWORD]" then
        [typeParam (jsShow i.selector) t i.inputType]
      else []
    | none => []
  else []

/-- The injected `headless` configuration parameter
(`apiExportService.js` lines 113-120). -/
def headlessParam : Parameter :=
  { name := "headless", type := "boolean"
    description := "Run browser in headless mode"
    exampleVal := .b true, required := false, defaultVal := some (.b true) }

/-- The injected `timeout` configuration parameter
(`apiExportService.js` lines 122-129). -/
def timeoutParam : Parameter :=
  { name := "timeout", type := "integer"
    description := "Maximum timeout in milliseconds"
    exampleVal := .n 30000, required := false, defaultVal := some (.n 30000) }

/-- `deduplicateParameters` (`apiExportService.js` lines 654-661): the
stateful `Set`-backed filter, keeping the first parameter of each name. -/
def dedupParamsAux (seen : List String) : List Parameter → List Parameter
  | [] => []
  | p :: rest =>
    if p.name ∈ seen then dedupParamsAux seen rest
    else p :: dedupParamsAux (p.name :: seen) rest

def deduplicateParameters (params : List Parameter) : List Parameter :=
  dedupParamsAux [] params

/-- `extractAPIParameters` (`apiExportService.js` lines 68-132): collect
per-interaction parameters in trace order, append the two injected
configuration parameters, then deduplicate by name (first write wins). -/
def extractAPIParameters (ints : List Interaction) : List Parameter :=
  deduplicateParameters
    (ints.flatMap interactionParams ++ [headlessParam, timeoutParam])

/-! ## Statement-level predicates for the capture claims -/

/-- Two capture operations that are equal, or are `input` events at the same
instant whose targets are the same password-kind element up to the typed
`value`.  Lifted pointwise over runs, this is "the two capture runs differ
only in the text content typed into a password-kind input". -/
def matchesUpToPasswordText (a b : RecEvent) : Prop :=
  a = b ∨ ∃ (now : Nat) (e : Element) (v₁ v₂ : String),
    e.inputType = "password" ∧
    a = .input now (e.withValue v₁) ∧ b = .input now (e.withValue v₂)

/-- The recorder-state invariant carried along a run whose clock readings so
far are bounded by `c`: the buffer is chronologically ordered in
`relativeTime`, begins (when nonempty) with the session-start `navigation`
recorded at relative time 0, and, while recording, the buffer is nonempty
with all timestamps between `startTime` and `c` and `relativeTime` derived
from them. -/
def recorderInv (c : Nat) (st : RecorderState) : Prop :=
  List.Chain' (fun a b : Interaction => a.relativeTime ≤ b.relativeTime)
    st.interactions ∧
  (∀ i rest, st.interactions = i :: rest →
    i.action = "navigation" ∧ i.relativeTime = 0) ∧
  (st.isRecording = true → st.startTime ≤ c ∧
    ∀ i ∈ st.interactions, st.startTime ≤ i.timestamp ∧ i.timestamp ≤ c ∧
      i.relativeTime = i.timestamp - st.startTime) ∧
  (st.isRecording = true → st.interactions ≠ [])

/-! ## Specification-side definitions

These definitions follow the wording of spec sentences (not the source); they
exist to be compared against the source-derived definitions above. -/

/-- The per-interaction cost table exactly as the runtime-estimate claim
states it: navigation 3000 ms, click 500 ms, scroll 300 ms, wait 2000 ms,
unrecognized 200 ms, and `type` 50 ms per character unconditionally. -/
def claimStepCostMs (i : Interaction) : Nat :=
  if i.action = "navigation" then 3000
  else if i.action = "click" then 500
  else if i.action = "scroll" then 300
  else if i.action = "wait" then 2000
  else if i.action = "type" then 50 * (i.text.getD "").length
  else 200

/-- The amended cost table: as the claim's, except that a `type` interaction
whose text is absent or empty costs 500 ms. -/
def specStepCostMs (i : Interaction) : Nat :=
  if i.action = "navigation" then 3000
  else if i.action = "click" then 500
  else if i.action = "scroll" then 300
  else if i.action = "wait" then 2000
  else if i.action = "type" then
    match i.text with
    | some t => if t ≠ "" then t.length * 50 else 500
    | none => 500
  else 200

/-- Whole-second, rounded-up runtime estimate from the amended cost table. -/
def specEstimateSeconds (ints : List Interaction) : Nat :=
  ((ints.map specStepCostMs).sum + 999) / 1000

/-- The spec's workhorse example trace: one navigation and one `type` with
ten characters of text. -/
def c9ExampleTrace : List Interaction :=
  [{ action := "navigation", url := some "https://example.com" },
   { action := "type", selector := some "#q", text := some "helloworld" }]

/-- A trace with a single `type` interaction that carries empty text. -/
def c9EmptyTypeTrace : List Interaction :=
  [{ action := "type", selector := some "#q", text := some "" }]

/-! ## String lemmas -/

theorem isPrefixChars_iff (n h : List Char) :
    isPrefixChars n h = true ↔ ∃ b, h = n ++ b := by
  induction n generalizing h with
  | nil => simp [isPrefixChars]
  | cons a as ih =>
    cases h with
    | nil =>
      simp [isPrefixChars]
    | cons b bs =>
      simp only [isPrefixChars, Bool.and_eq_true, decide_eq_true_eq, ih]
      constructor
      · rintro ⟨rfl, c, rfl⟩; exact ⟨c, rfl⟩
      · rintro ⟨c, hc⟩
        injection hc with h1 h2
        exact ⟨h1.symm, c, h2⟩

theorem hasSubChars_iff (n h : List Char) :
    hasSubChars n h = true ↔ ∃ a b, h = a ++ n ++ b := by
  induction h with
  | nil =>
    simp only [hasSubChars, isPrefixChars_iff]
    constructor
    · rintro ⟨b, hb⟩
      exact ⟨[], b, by simpa using hb⟩
    · rintro ⟨a, b, hab⟩
      have ha : a = [] := by
        cases a with
        | nil => rfl
        | cons x xs => simp at hab
      subst ha
      exact ⟨b, by simpa using hab⟩
  | cons c t ih =>
    simp only [hasSubChars, Bool.or_eq_true, isPrefixChars_iff, ih]
    constructor
    · rintro (⟨b, hb⟩ | ⟨a, b, hab⟩)
      · exact ⟨[], b, by simpa using hb⟩
      · exact ⟨c :: a, b, by simp [hab]⟩
    · rintro ⟨a, b, hab⟩
      cases a with
      | nil => exact Or.inl ⟨b, by simpa using hab⟩
      | cons x xs =>
        injection hab with h1 h2
        exact Or.inr ⟨xs, b, by simp [h2]⟩

theorem appearsIn_iff_jsIncludes (s t : String) :
    appearsIn s t ↔ jsIncludes t s = true := by
  rw [jsIncludes, hasSubChars_iff]
  constructor
  · rintro ⟨a, b, rfl⟩
    exact ⟨a.data, b.data, by simp [String.data_append]⟩
  · rintro ⟨a, b, hab⟩
    refine ⟨⟨a⟩, ⟨b⟩, String.ext ?_⟩
    simpa [String.data_append] using hab

theorem appearsIn_left (s t : String) : appearsIn s (s ++ t) :=
  ⟨"", t, by simp⟩

theorem appearsIn_self (s : String) : appearsIn s s :=
  ⟨"", "", by simp⟩

theorem appearsIn_right (s t : String) : appearsIn s (t ++ s) :=
  ⟨t, "", by simp⟩

theorem appearsIn_append_left {s t : String} (u : String) (h : appearsIn s t) :
    appearsIn s (u ++ t) := by
  obtain ⟨a, b, rfl⟩ := h
  exact ⟨u ++ a, b, by simp [String.append_assoc]⟩

theorem appearsIn_append_right {s t : String} (u : String) (h : appearsIn s t) :
    appearsIn s (t ++ u) := by
  obtain ⟨a, b, rfl⟩ := h
  exact ⟨a, b ++ u, by simp [String.append_assoc]⟩

theorem appearsIn_trans {s t u : String} (h1 : appearsIn s t) (h2 : appearsIn t u) :
    appearsIn s u := by
  obtain ⟨a, b, rfl⟩ := h1
  obtain ⟨c, d, rfl⟩ := h2
  exact ⟨c ++ a, b ++ d, by simp [String.append_assoc]⟩

/-- Characters of a substring are characters of the string. -/
theorem mem_data_of_appearsIn {s t : String} (h : appearsIn s t) {c : Char}
    (hc : c ∈ s.data) : c ∈ t.data := by
  obtain ⟨a, b, rfl⟩ := h
  simp only [String.data_append, List.mem_append]
  exact Or.inl (Or.inr hc)

/-! ## C9: runtime estimation -/

theorem foldl_interactionCost (ints : List Interaction) (acc : Nat) :
    ints.foldl (fun a i => a + interactionCost i) acc =
      acc + (ints.map interactionCost).sum := by
  induction ints generalizing acc with
  | nil => simp
  | cons i rest ih => simp [ih, Nat.add_assoc]

theorem interactionCost_eq_spec (i : Interaction) :
    interactionCost i = specStepCostMs i := by
  unfold interactionCost specStepCostMs
  split_ifs <;> simp_all

/-- **C9** (amended): the runtime estimate is the per-kind fixed-cost sum
(navigation 3000 ms, click 500 ms, scroll 300 ms, wait 2000 ms, unrecognized
200 ms, `type` 50 ms per character when the text is non-empty and 500 ms
otherwise), divided by 1000 and rounded up to whole seconds; in particular
the estimate for one navigation plus one ten-character `type` is 4 seconds
(rendered `"4s"`). -/
theorem c9_runtime_estimate :
    (∀ ints : List Interaction,
      estimateRuntime ints = toString (specEstimateSeconds ints) ++ "s") ∧
    estimateRuntime c9ExampleTrace = "4s" := by
  constructor
  · intro ints
    unfold estimateRuntime specEstimateSeconds
    rw [foldl_interactionCost]
    have hmap : ints.map interactionCost = ints.map specStepCostMs := by
      induction ints with
      | nil => rfl
      | cons i r ih => simp [ih, interactionCost_eq_spec]
    rw [hmap]
    simp
  · decide

/-- **C9** counterexample to the claim as stated: on a trace whose single
interaction is a `type` with empty text, the code estimates `"1s"` (the
500 ms falsy-text cost), while the claim's unconditional 50 ms-per-character
table yields `ceil(0/1000) = 0` seconds. -/
theorem c9_counterexample :
    estimateRuntime c9EmptyTypeTrace ≠
      toString (((c9EmptyTypeTrace.map claimStepCostMs).sum + 999) / 1000) ++ "s" := by
  decide

/-! ## C2: determinism of synthesis -/

/-- **C2** counterexample to the claim as stated: the generated sources embed
the generation timestamp (`new Date().toISOString()`), so synthesizing the
same (empty) trace at two different instants is not byte-identical. -/
theorem c2_counterexample :
    generateBasicPlaywrightScript "2024-01-01T00:00:00.000Z" [] ≠
      generateBasicPlaywrightScript "2024-01-01T00:00:01.000Z" [] := by
  decide

/-- **C2** (amended): synthesis is a pure function of the trace *and* the
generation instant's clock readings (the ISO timestamp embedded in each
script header and the millisecond counter in the configuration name) plus,
for the configuration object, the collaborator-supplied analysis: two
invocations that observe equal clock readings and analysis produce
byte-identical output for all four scripts and the configuration; and the
timestamp reading does occur verbatim in each generated script, which is
where the impurity enters. -/
theorem c2_deterministic_given_clock (t₁ t₂ : String) (n₁ n₂ : Nat)
    (a₁ a₂ : Analysis) (ints : List Interaction)
    (ht : t₁ = t₂) (hn : n₁ = n₂) (ha : a₁ = a₂) :
    synthesize t₁ n₁ a₁ ints = synthesize t₂ n₂ a₂ ints ∧
    appearsIn t₁ (generateBasicPlaywrightScript t₁ ints) ∧
    appearsIn t₁ (generatePuppeteerScript t₁ ints) ∧
    appearsIn t₁ (generateSeleniumScript t₁ ints) ∧
    appearsIn t₁ (generateCypressScript t₁ ints) := by
  subst ht hn ha
  refine ⟨rfl, ?_, ?_, ?_, ?_⟩
  · unfold generateBasicPlaywrightScript playwrightHeader
    repeat first
      | exact appearsIn_append_left _ (appearsIn_self _)
      | apply appearsIn_append_right
  · unfold generatePuppeteerScript
    repeat first
      | exact appearsIn_append_left _ (appearsIn_self _)
      | apply appearsIn_append_right
  · unfold generateSeleniumScript
    repeat first
      | exact appearsIn_append_left _ (appearsIn_self _)
      | apply appearsIn_append_right
  · unfold generateCypressScript
    repeat first
      | exact appearsIn_append_left _ (appearsIn_self _)
      | apply appearsIn_append_right

/-- **C2** witness: the amended determinism theorem applied at a concrete
instant, analysis and trace. -/
theorem c2_witness :
    synthesize "2024-01-01T00:00:00.000Z" 1704067200000
        (getDefaultAnalysis []) [] =
      synthesize "2024-01-01T00:00:00.000Z" 1704067200000
        (getDefaultAnalysis []) [] ∧
    appearsIn "2024-01-01T00:00:00.000Z"
      (generateBasicPlaywrightScript "2024-01-01T00:00:00.000Z" []) :=
  ⟨(c2_deterministic_given_clock _ _ _ _ _ _ [] rfl rfl rfl).1,
   (c2_deterministic_given_clock "2024-01-01T00:00:00.000Z" _ 1704067200000 _
      (getDefaultAnalysis []) _ [] rfl rfl rfl).2.1⟩

/-! ## C3: every interaction is visible in the generated artifacts -/

theorem appearsIn_concatAll {x : String} {l : List String} (h : x ∈ l) :
    appearsIn x (concatAll l) := by
  induction l with
  | nil => cases h
  | cons a t ih =>
    rcases List.mem_cons.mp h with rfl | hmem
    · exact appearsIn_left _ _
    · exact appearsIn_append_left a (ih hmem)

theorem appearsIn_joinWith {x sep : String} {l : List String} (h : x ∈ l) :
    appearsIn x (joinWith sep l) := by
  induction l with
  | nil => cases h
  | cons a t ih =>
    cases t with
    | nil =>
      rcases List.mem_cons.mp h with rfl | hmem
      · exact appearsIn_self _
      · cases hmem
    | cons b t' =>
      rcases List.mem_cons.mp h with rfl | hmem
      · exact appearsIn_append_right _ (appearsIn_left _ _)
      · exact appearsIn_append_left _ (ih hmem)

theorem stepTag_appearsIn_interactionCode (i : Interaction) (k : Nat) :
    appearsIn (stepTag k) (generateInteractionCode i k) := by
  simp only [generateInteractionCode]
  split_ifs <;>
    (repeat first
      | exact appearsIn_left _ _
      | apply appearsIn_append_right)

theorem stepTag_appearsIn_seleniumStep (i : Interaction) (k : Nat) :
    appearsIn (stepTag k) (seleniumStep i k) := by
  simp only [seleniumStep]
  split_ifs <;> exact appearsIn_left _ _

theorem stepTag_appearsIn_cypressStep (i : Interaction) (k : Nat) :
    appearsIn (stepTag k) (cypressStep i k) := by
  simp only [cypressStep]
  split_ifs <;> exact appearsIn_left _ _

theorem enum_pair_mem (ints : List Interaction) (k : Nat) (h : k < ints.length) :
    (k, ints.get ⟨k, h⟩) ∈ ints.enum := by
  have hk : k < ints.enum.length := by simpa using h
  have hmem := List.get_mem ints.enum k hk
  have hval : ints.enum.get ⟨k, hk⟩ = (k, ints.get ⟨k, h⟩) := by
    simp [List.get_eq_getElem, List.getElem_enum]
  rwa [hval] at hmem

/-- **C3** (amended): in the basic Playwright, Selenium and Cypress outputs
every interaction of the trace is visible as its indexed step marker
`// Step k+1:` (unsupported kinds degrade to a marker comment); the
Puppeteer generator, by contrast, omits every interaction that is not a
navigation, click or type (see the counterexample). -/
theorem c3_step_markers (nowIso : String) (ints : List Interaction) (k : Nat)
    (h : k < ints.length) :
    appearsIn (stepTag k) (generateBasicPlaywrightScript nowIso ints) ∧
    appearsIn (stepTag k) (generateSeleniumScript nowIso ints) ∧
    appearsIn (stepTag k) (generateCypressScript nowIso ints) := by
  have hmem := enum_pair_mem ints k h
  refine ⟨?_, ?_, ?_⟩
  · unfold generateBasicPlaywrightScript
    refine appearsIn_append_right _ (appearsIn_append_left _ ?_)
    have h1 : appearsIn (stepTag k)
        (generateInteractionCode (ints.get ⟨k, h⟩) k) :=
      stepTag_appearsIn_interactionCode (ints.get ⟨k, h⟩) k
    have h2 : appearsIn (generateInteractionCode (ints.get ⟨k, h⟩) k)
        (concatAll (ints.enum.map fun p => generateInteractionCode p.2 p.1)) :=
      appearsIn_concatAll
        (List.mem_map_of_mem (fun p : Nat × Interaction =>
          generateInteractionCode p.2 p.1) hmem)
    exact appearsIn_trans h1 h2
  · unfold generateSeleniumScript
    refine appearsIn_append_right _ (appearsIn_append_left _ ?_)
    have h1 : appearsIn (stepTag k) (seleniumStep (ints.get ⟨k, h⟩) k) :=
      stepTag_appearsIn_seleniumStep (ints.get ⟨k, h⟩) k
    have h2 : appearsIn (seleniumStep (ints.get ⟨k, h⟩) k)
        (joinWith "\n\n" (ints.enum.map fun p => seleniumStep p.2 p.1)) :=
      appearsIn_joinWith
        (List.mem_map_of_mem (fun p : Nat × Interaction =>
          seleniumStep p.2 p.1) hmem)
    exact appearsIn_trans h1 h2
  · unfold generateCypressScript
    refine appearsIn_append_right _ (appearsIn_append_left _ ?_)
    have h1 : appearsIn (stepTag k) (cypressStep (ints.get ⟨k, h⟩) k) :=
      stepTag_appearsIn_cypressStep (ints.get ⟨k, h⟩) k
    have h2 : appearsIn (cypressStep (ints.get ⟨k, h⟩) k)
        (joinWith "\n\n" (ints.enum.map fun p => cypressStep p.2 p.1)) :=
      appearsIn_joinWith
        (List.mem_map_of_mem (fun p : Nat × Interaction =>
          cypressStep p.2 p.1) hmem)
    exact appearsIn_trans h1 h2

/-- **C3** witness: the marker theorem applied to a concrete one-step trace. -/
theorem c3_witness :
    appearsIn (stepTag 0) (generateBasicPlaywrightScript "2024-01-01T00:00:00.000Z"
      [{ action := "navigation", url := some "https://example.com" }]) ∧
    appearsIn (stepTag 0) (generateSeleniumScript "2024-01-01T00:00:00.000Z"
      [{ action := "navigation", url := some "https://example.com" }]) ∧
    appearsIn (stepTag 0) (generateCypressScript "2024-01-01T00:00:00.000Z"
      [{ action := "navigation", url := some "https://example.com" }]) :=
  c3_step_markers "2024-01-01T00:00:00.000Z"
    [{ action := "navigation", url := some "https://example.com" }] 0
    (by decide)

set_option maxRecDepth 4000 in
/-- **C3** counterexample to the claim as stated: the Puppeteer generator has
no default arm, so a trace consisting of one scroll interaction produces the
very same bytes as the empty trace — the step is invisible, with no marker
comment. -/
theorem c3_counterexample :
    generatePuppeteerScript "2024-01-01T00:00:00.000Z"
        [{ action := "scroll", x := some 0, y := some 0 }] =
      generatePuppeteerScript "2024-01-01T00:00:00.000Z" [] ∧
    ¬ appearsIn (stepTag 0) (generatePuppeteerScript "2024-01-01T00:00:00.000Z"
        [{ action := "scroll", x := some 0, y := some 0 }]) := by
  constructor
  · decide
  · rw [appearsIn_iff_jsIncludes]
    decide

/-! ## C5: password sentinel handling in the generated sources -/

set_option maxRecDepth 8000 in
/-- **C5** counterexample to the claim as stated: compiling a `type`
interaction that carries the `[PASSWORD]` sentinel for the Puppeteer target
produces no `config.password` reference at all — the sentinel is not
substituted there. -/
theorem c5_counterexample :
    ¬ appearsIn "config.password"
      (generatePuppeteerScript "2024-01-01T00:00:00.000Z"
        [{ action := "type", selector := some "#password"
           text := some "[PASSWORD]", inputType := some "password" }]) := by
  rw [appearsIn_iff_jsIncludes]
  decide

set_option maxRecDepth 8000 in
/-- **C5** (amended): only the basic Playwright generator substitutes a
configuration-supplied value for the captured `[PASSWORD]` sentinel — its
`type` compilation emits a `config.password` reference at the fill call site
for every selector; the Puppeteer, Selenium and Cypress generators instead
embed the captured text verbatim, so their output for a sentinel-carrying
`type` interaction contains the quoted literal `'[PASSWORD]'` and no
`config.password` reference. -/
theorem c5_password_substitution :
    (∀ (sel elt it : Option String) (k : Nat),
      appearsIn "config.password"
        (generateInteractionCode
          { action := "type", selector := sel, element := elt
            text := some "[PASSWORD]", inputType := it } k)) ∧
    (∀ (nowIso : String) (sel elt it : Option String),
      appearsIn "config.password"
        (generateBasicPlaywrightScript nowIso
          [{ action := "type", selector := sel, element := elt
             text := some "[PASSWORD]", inputType := it }])) ∧
    (¬ appearsIn "config.password"
      (generateSeleniumScript "2024-01-01T00:00:00.000Z"
        [{ action := "type", selector := some "#password"
           text := some "[PASSWORD]", inputType := some "password" }])) ∧
    appearsIn "\x27[PASSWORD]\x27"
      (generateSeleniumScript "2024-01-01T00:00:00.000Z"
        [{ action := "type", selector := some "#password"
           text := some "[PASSWORD]", inputType := some "password" }]) ∧
    (¬ appearsIn "config.password"
      (generateCypressScript "2024-01-01T00:00:00.000Z"
        [{ action := "type", selector := some "#password"
           text := some "[PASSWORD]", inputType := some "password" }])) ∧
    appearsIn "\x27[PASSWORD]\x27"
      (generateCypressScript "2024-01-01T00:00:00.000Z"
        [{ action := "type", selector := some "#password"
           text := some "[PASSWORD]", inputType := some "password" }]) ∧
    appearsIn "\x27[PASSWORD]\x27"
      (generatePuppeteerScript "2024-01-01T00:00:00.000Z"
        [{ action := "type", selector := some "#password"
           text := some "[PASSWORD]", inputType := some "password" }]) := by
  have hlit : appearsIn "config.password"
      "$\x7bconfig.password || \"[PASSWORD]\"\x7d" := by
    rw [appearsIn_iff_jsIncludes]
    decide
  have hgic : ∀ (sel elt it : Option String) (k : Nat),
      appearsIn "config.password"
        (generateInteractionCode
          { action := "type", selector := sel, element := elt
            text := some "[PASSWORD]", inputType := it } k) := by
    intro sel elt it k
    refine appearsIn_trans hlit ?_
    simp only [generateInteractionCode]
    norm_num
    exact appearsIn_append_left _ (appearsIn_append_right _ (appearsIn_right _ _))
  refine ⟨hgic, ?_, ?_, ?_, ?_, ?_, ?_⟩
  · intro nowIso sel elt it
    unfold generateBasicPlaywrightScript
    refine appearsIn_append_right _ (appearsIn_append_left _ ?_)
    have hmem : ((0 : Nat),
        ({ action := "type", selector := sel, element := elt
           text := some "[PASSWORD]", inputType := it } : Interaction)) ∈
        ([{ action := "type", selector := sel, element := elt
            text := some "[PASSWORD]", inputType := it }] : List Interaction).enum := by
      simp
    exact appearsIn_trans (hgic sel elt it 0)
      (appearsIn_concatAll
        (List.mem_map_of_mem (fun p : Nat × Interaction =>
          generateInteractionCode p.2 p.1) hmem))
  · rw [appearsIn_iff_jsIncludes]; decide
  · rw [appearsIn_iff_jsIncludes]; decide
  · rw [appearsIn_iff_jsIncludes]; decide
  · rw [appearsIn_iff_jsIncludes]; decide
  · rw [appearsIn_iff_jsIncludes]; decide

/-! ## C6/C7: parameter deduplication -/

theorem mem_dedupParamsAux {p : Parameter} {seen : List String}
    {l : List Parameter} (h : p ∈ dedupParamsAux seen l) :
    p.name ∉ seen ∧ l.find? (fun q => q.name == p.name) = some p := by
  induction l generalizing seen with
  | nil => cases h
  | cons q rest ih =>
    by_cases hq : q.name ∈ seen
    · simp only [dedupParamsAux, if_pos hq] at h
      obtain ⟨hns, hf⟩ := ih h
      have hne : ¬(q.name == p.name) = true := by
        simp only [beq_iff_eq]
        intro he
        exact hns (he ▸ hq)
      refine ⟨hns, ?_⟩
      have hstep : List.find? (fun q => q.name == p.name) (q :: rest) =
          List.find? (fun q => q.name == p.name) rest :=
        List.find?_cons_of_neg _ hne
      rw [hstep]
      exact hf
    · simp only [dedupParamsAux, if_neg hq] at h
      rcases List.mem_cons.mp h with rfl | hmem
      · refine ⟨hq, ?_⟩
        have hstep : List.find? (fun q => q.name == p.name) (p :: rest) =
            some p :=
          List.find?_cons_of_pos _ (by simp)
        exact hstep
      · obtain ⟨hns, hf⟩ := ih hmem
        have hne : ¬(q.name == p.name) = true := by
          simp only [beq_iff_eq]
          intro he
          exact hns (he ▸ List.mem_cons_self _ _)
        refine ⟨fun hs => hns (List.mem_cons_of_mem _ hs), ?_⟩
        have hstep : List.find? (fun q => q.name == p.name) (q :: rest) =
            List.find? (fun q => q.name == p.name) rest :=
          List.find?_cons_of_neg _ hne
        rw [hstep]
        exact hf

theorem names_dedupParamsAux (seen : List String) (l : List Parameter) :
    ((dedupParamsAux seen l).map Parameter.name).Nodup ∧
    ∀ n ∈ (dedupParamsAux seen l).map Parameter.name, n ∉ seen ∧
      n ∈ l.map Parameter.name := by
  induction l generalizing seen with
  | nil => simp [dedupParamsAux]
  | cons q rest ih =>
    by_cases hq : q.name ∈ seen
    · have := ih seen
      simp only [dedupParamsAux, if_pos hq]
      exact ⟨this.1, fun n hn =>
        ⟨(this.2 n hn).1, List.mem_cons_of_mem _ (this.2 n hn).2⟩⟩
    · have ihq := ih (q.name :: seen)
      simp only [dedupParamsAux, if_neg hq, List.map_cons, List.nodup_cons]
      refine ⟨⟨fun hmem => (ihq.2 _ hmem).1 (List.mem_cons_self _ _), ihq.1⟩, ?_⟩
      intro n hn
      rcases List.mem_cons.mp hn with rfl | hmem
      · exact ⟨hq, List.mem_cons_self _ _⟩
      · exact ⟨fun hs => (ihq.2 _ hmem).1 (List.mem_cons_of_mem _ hs),
          List.mem_cons_of_mem _ (ihq.2 _ hmem).2⟩

theorem names_mem_dedupParamsAux (seen : List String) (l : List Parameter)
    (n : String) (hl : n ∈ l.map Parameter.name) (hs : n ∉ seen) :
    n ∈ (dedupParamsAux seen l).map Parameter.name := by
  induction l generalizing seen with
  | nil => cases hl
  | cons q rest ih =>
    by_cases hq : q.name ∈ seen
    · simp only [dedupParamsAux, if_pos hq]
      rcases List.mem_cons.mp hl with rfl | hmem
      · exact absurd hq hs
      · exact ih seen hmem hs
    · simp only [dedupParamsAux, if_neg hq, List.map_cons]
      rcases List.mem_cons.mp hl with rfl | hmem
      · exact List.mem_cons_self _ _
      · by_cases hnq : n = q.name
        · exact hnq ▸ List.mem_cons_self _ _
        · exact List.mem_cons_of_mem _
            (ih (q.name :: seen) hmem (by simp [hnq, hs]))

theorem filter_name_singleton {l : List Parameter}
    (hnd : (l.map Parameter.name).Nodup) {p : Parameter} (hp : p ∈ l) :
    l.filter (fun q => q.name == p.name) = [p] := by
  induction l with
  | nil => cases hp
  | cons a t ih =>
    simp only [List.map_cons, List.nodup_cons] at hnd
    rcases List.mem_cons.mp hp with rfl | hmem
    · have ht : t.filter (fun q => q.name == p.name) = [] := by
        rw [List.filter_eq_nil_iff]
        intro q hq
        simp only [beq_iff_eq]
        intro he
        exact hnd.1 (he ▸ List.mem_map_of_mem Parameter.name hq)
      simp [List.filter_cons, ht]
    · have hne : (a.name == p.name) = false := by
        simp only [beq_eq_false_iff_ne, ne_eq]
        intro he
        exact hnd.1 (he ▸ List.mem_map_of_mem Parameter.name hmem)
      simp [List.filter_cons, hne, ih hnd.2 hmem]

/-- **C7**: parameter extraction deduplicates by name with first-write-wins:
every parameter of the output is the *first* parameter of that name pushed
during collection (later same-named pushes are discarded whole, not merged),
and its name occurs exactly once in the output. -/
theorem c7_first_write_wins (ints : List Interaction) (p : Parameter)
    (hp : p ∈ extractAPIParameters ints) :
    (ints.flatMap interactionParams ++ [headlessParam, timeoutParam]).find?
        (fun q => q.name == p.name) = some p ∧
    (extractAPIParameters ints).filter (fun q => q.name == p.name) = [p] := by
  have h1 := @mem_dedupParamsAux p [] _ hp
  have h2 := names_dedupParamsAux []
    (ints.flatMap interactionParams ++ [headlessParam, timeoutParam])
  exact ⟨h1.2, filter_name_singleton h2.1 hp⟩

/-- **C7** witness: a trace with two `type` interactions whose id-form
selectors both derive the parameter name `field`; extraction keeps exactly
the first and its fields. -/
theorem c7_witness :
    (([{ action := "type", selector := some "#user", text := some "alice" },
       { action := "type", selector := some "#city", text := some "berlin" }] :
        List Interaction).flatMap interactionParams ++
      [headlessParam, timeoutParam]).find?
        (fun q => q.name == (typeParam "#user" "alice" none).name) =
      some (typeParam "#user" "alice" none) ∧
    (extractAPIParameters
        [{ action := "type", selector := some "#user", text := some "alice" },
         { action := "type", selector := some "#city", text := some "berlin" }]).filter
        (fun q => q.name == (typeParam "#user" "alice" none).name) =
      [typeParam "#user" "alice" none] :=
  c7_first_write_wins
    [{ action := "type", selector := some "#user", text := some "alice" },
     { action := "type", selector := some "#city", text := some "berlin" }]
    (typeParam "#user" "alice" none)
    (by
      have he : extractAPIParameters
          [{ action := "type", selector := some "#user", text := some "alice" },
           { action := "type", selector := some "#city", text := some "berlin" }] =
          [typeParam "#user" "alice" none, headlessParam, timeoutParam] := by
        decide
      rw [he]
      exact List.mem_cons_self _ _)

theorem dedupParamsAux_append_injected (seen : List String) (l : List Parameter)
    (h1 : ∀ p ∈ l, p.name ≠ "headless" ∧ p.name ≠ "timeout")
    (h2 : "headless" ∉ seen) (h3 : "timeout" ∉ seen) :
    dedupParamsAux seen (l ++ [headlessParam, timeoutParam]) =
      dedupParamsAux seen l ++ [headlessParam, timeoutParam] := by
  induction l generalizing seen with
  | nil =>
    have hh : headlessParam.name ∉ seen := by simpa [headlessParam] using h2
    have ht : timeoutParam.name ∉ headlessParam.name :: seen := by
      intro hmem
      rcases List.mem_cons.mp hmem with he | hs
      · simp [timeoutParam, headlessParam] at he
      · exact h3 (by simpa [timeoutParam] using hs)
    simp [dedupParamsAux, hh, ht]
  | cons q rest ih =>
    by_cases hq : q.name ∈ seen
    · simp only [List.cons_append, dedupParamsAux, if_pos hq]
      exact ih seen (fun p hp => h1 p (List.mem_cons_of_mem _ hp)) h2 h3
    · simp only [List.cons_append, dedupParamsAux, if_neg hq, List.cons.injEq,
        true_and]
      refine ih (q.name :: seen) (fun p hp => h1 p (List.mem_cons_of_mem _ hp))
        ?_ ?_
      · intro hmem
        rcases List.mem_cons.mp hmem with he | hs
        · exact (h1 q (List.mem_cons_self _ _)).1 he.symm
        · exact h2 hs
      · intro hmem
        rcases List.mem_cons.mp hmem with he | hs
        · exact (h1 q (List.mem_cons_self _ _)).2 he.symm
        · exact h3 hs

/-- **C6** (amended): `extractAPIParameters` appends two injected
configuration parameters named `headless` (boolean) and `timeout` (integer)
— not `timeoutMs` — before deduplication; whenever no trace-derived
parameter uses either name the returned list ends with exactly those two
parameters, and for every trace parameters named `headless` and `timeout`
are present in the output (though a colliding trace-derived parameter would
take their place). -/
theorem c6_injected_params (ints : List Interaction)
    (h : ∀ p ∈ ints.flatMap interactionParams,
      p.name ≠ "headless" ∧ p.name ≠ "timeout") :
    extractAPIParameters ints =
      deduplicateParameters (ints.flatMap interactionParams) ++
        [headlessParam, timeoutParam] ∧
    headlessParam.name = "headless" ∧ headlessParam.type = "boolean" ∧
    timeoutParam.name = "timeout" ∧ timeoutParam.type = "integer" ∧
    ∀ ints' : List Interaction,
      "headless" ∈ (extractAPIParameters ints').map Parameter.name ∧
      "timeout" ∈ (extractAPIParameters ints').map Parameter.name := by
  refine ⟨?_, rfl, rfl, rfl, rfl, ?_⟩
  · unfold extractAPIParameters deduplicateParameters
    exact dedupParamsAux_append_injected [] _ h (by simp) (by simp)
  · intro ints'
    constructor
    · exact names_mem_dedupParamsAux [] _ _ (by simp [headlessParam]) (by simp)
    · exact names_mem_dedupParamsAux [] _ _ (by simp [timeoutParam]) (by simp)

/-- **C6** witness: the injected-parameter theorem applied to a concrete
one-`type` trace (derived parameter name `field`). -/
theorem c6_witness :
    extractAPIParameters
        [{ action := "type", selector := some "#user", text := some "alice" }] =
      deduplicateParameters
        (([{ action := "type", selector := some "#user", text := some "alice" }] :
          List Interaction).flatMap interactionParams) ++
        [headlessParam, timeoutParam] :=
  (c6_injected_params
    [{ action := "type", selector := some "#user", text := some "alice" }]
    (by decide)).1

/-- **C6** counterexample to the claim as stated: on the empty trace the two
injected parameters are named `headless` and `timeout`; no parameter named
`timeoutMs` exists. -/
theorem c6_counterexample :
    (extractAPIParameters []).map Parameter.name = ["headless", "timeout"] ∧
    "timeoutMs" ∉ (extractAPIParameters []).map Parameter.name := by
  decide

/-! ## C1: AI-enhancement failure discards the basic script -/

theorem enhanceLoop_all_fail (call : String → Except String String)
    (hfail : ∀ m, ∃ e, call m = .error e) :
    ∀ (n idx : Nat), ∃ idx',
      enhanceLoop call idx (n + 1) =
        (.error "All AI models failed. Returning basic script.", idx') := by
  intro n
  induction n with
  | zero =>
    intro idx
    obtain ⟨e, he⟩ := hfail (aiModels.getD idx "")
    refine ⟨(idx + 1) % aiModels.length, ?_⟩
    unfold enhanceLoop
    rw [he]
    simp
  | succ k ih =>
    intro idx
    obtain ⟨e, he⟩ := hfail (aiModels.getD idx "")
    obtain ⟨idx', hrec⟩ := ih ((idx + 1) % aiModels.length)
    refine ⟨idx', ?_⟩
    unfold enhanceLoop
    rw [he]
    simpa using hrec

theorem generateEnhancedScript_all_fail (call : String → Except String String)
    (st : AIState) (ints : List Interaction)
    (hfail : ∀ m, ∃ e, call m = .error e)
    (hcache : st.requestCache.lookup (generateCacheKey ints) = none) :
    ∃ st', generateEnhancedScript call st ints =
      (.error "All AI models failed. Returning basic script.", st') := by
  obtain ⟨idx', hloop⟩ := enhanceLoop_all_fail call hfail 2 st.currentModelIndex
  refine ⟨{ st with currentModelIndex := idx' }, ?_⟩
  unfold generateEnhancedScript
  dsimp only
  rw [hcache, show aiModels.length = 2 + 1 from rfl, hloop]

/-- **C1**: contrary to the claim, when every AI model call fails (and the
response cache has no entry for the trace), `generateAutomationPackage`
propagates the error `'All AI models failed. Returning basic script.'`
thrown by `generateEnhancedScript` — the already-computed basic Playwright
script is discarded, not returned.  (The error message itself documents the
intended-but-unimplemented fallback.) -/
theorem c1_all_models_fail_propagates (call : String → Except String String)
    (parse : String → Analysis) (st : AIState) (nowIso : String) (nowMs : Nat)
    (ints : List Interaction)
    (hfail : ∀ m, ∃ e, call m = .error e)
    (hcache : st.requestCache.lookup (generateCacheKey ints) = none) :
    (generateAutomationPackage call parse st nowIso nowMs ints).1 =
      .error "All AI models failed. Returning basic script." := by
  obtain ⟨st', hge⟩ := generateEnhancedScript_all_fail call st ints hfail hcache
  unfold generateAutomationPackage
  rw [hge]

/-- **C1** witness: an oracle whose every model call fails, an empty cache
and the empty trace; the package is the propagated error. -/
theorem c1_witness :
    (generateAutomationPackage (fun _ => .error "boom")
        (fun _ => getDefaultAnalysis []) ⟨0, []⟩
        "2024-01-01T00:00:00.000Z" 1704067200000 []).1 =
      .error "All AI models failed. Returning basic script." :=
  c1_all_models_fail_propagates (fun _ => .error "boom")
    (fun _ => getDefaultAnalysis []) ⟨0, []⟩ "2024-01-01T00:00:00.000Z"
    1704067200000 [] (fun _ => ⟨"boom", rfl⟩) rfl

/-! ## C4: password redaction at capture time -/

theorem withValue_inputType (e : Element) (v : String) :
    (e.withValue v).inputType = e.inputType := by cases e; rfl

theorem withValue_tagName (e : Element) (v : String) :
    (e.withValue v).tagName = e.tagName := by cases e; rfl

theorem withValue_generateSelector (e : Element) (v : String) :
    generateSelector (e.withValue v) = generateSelector e := by
  cases e
  simp only [Element.withValue]
  rw [generateSelector.eq_def, generateSelector.eq_def]

theorem inputHandler_password_eq (st : RecorderState) (now : Nat) (e : Element)
    (v₁ v₂ : String) (hpw : e.inputType = "password") :
    inputHandler st now (e.withValue v₁) = inputHandler st now (e.withValue v₂) := by
  unfold inputHandler
  rw [withValue_inputType e v₁, withValue_inputType e v₂, hpw]
  simp only [withValue_generateSelector, withValue_tagName]
  simp

/-- **C4**: capture-time password redaction.  (1) Two capture runs that
differ only in the text typed into a password-kind input produce identical
recorder states — in particular identical traces — from any starting state;
(2) the input handler records, for a password-kind target, the literal
sentinel `[PASSWORD]` and never the typed value. -/
theorem c4_password_redaction :
    (∀ (l₁ l₂ : List RecEvent), List.Forall₂ matchesUpToPasswordText l₁ l₂ →
      ∀ st : RecorderState, runRecorder st l₁ = runRecorder st l₂) ∧
    (∀ (st : RecorderState) (now : Nat) (e : Element),
      e.inputType = "password" → st.isRecording = true →
      (inputHandler st now e).interactions = st.interactions ++
        [{ action := "type", selector := some (generateSelector e)
           element := some e.tagName.toLower, text := some "[PASSWORD]"
           inputType := some e.inputType, timestamp := now
           relativeTime := now - st.startTime }]) := by
  constructor
  · intro l₁ l₂ h
    induction h with
    | nil => intro _; rfl
    | @cons a b l₁' l₂' hab _ ih =>
      intro st
      show runRecorder (stepRecorder st a) l₁' = runRecorder (stepRecorder st b) l₂'
      rcases hab with rfl | ⟨now, e, v₁, v₂, hpw, rfl, rfl⟩
      · exact ih _
      · have hstep : stepRecorder st (.input now (e.withValue v₁)) =
            stepRecorder st (.input now (e.withValue v₂)) := by
          simp only [stepRecorder]
          rw [inputHandler_password_eq st now e v₁ v₂ hpw]
        rw [hstep]
        exact ih _
  · intro st now e hpw hrec
    unfold inputHandler
    rw [hpw]
    simp [addInteraction, hrec]

/-- **C4** witness: two concrete three-operation runs (start, password input,
stop) typing `hunter2` and `letmein` respectively produce identical states. -/
theorem c4_witness :
    runRecorder (initRecorder "https://a")
        [.start 100 "https://a",
         .input 150 ((Element.mk "INPUT" "pw" "" "" "" "" "" "" "password" ""
           1 none).withValue "hunter2"),
         .stop] =
      runRecorder (initRecorder "https://a")
        [.start 100 "https://a",
         .input 150 ((Element.mk "INPUT" "pw" "" "" "" "" "" "" "password" ""
           1 none).withValue "letmein"),
         .stop] :=
  c4_password_redaction.1 _ _
    (List.Forall₂.cons (Or.inl rfl)
      (List.Forall₂.cons
        (Or.inr ⟨150,
          Element.mk "INPUT" "pw" "" "" "" "" "" "" "password" "" 1 none,
          "hunter2", "letmein", rfl, rfl, rfl⟩)
        (List.Forall₂.cons (Or.inl rfl) List.Forall₂.nil)))
    (initRecorder "https://a")

/-! ## C8: trace chronology and the leading navigation -/

theorem recorderInv_mono {c n : Nat} {st : RecorderState} (hcn : c ≤ n)
    (h : recorderInv c st) : recorderInv n st := by
  obtain ⟨h1, h2, h3, h4⟩ := h
  refine ⟨h1, h2, fun hrec => ?_, h4⟩
  obtain ⟨hst, hmem⟩ := h3 hrec
  exact ⟨hst.trans hcn, fun i hi =>
    ⟨(hmem i hi).1, (hmem i hi).2.1.trans hcn, (hmem i hi).2.2⟩⟩

theorem addInteraction_inv {c n : Nat} {st : RecorderState}
    (h : recorderInv c st) (hcn : c ≤ n) (hrec : st.isRecording = true)
    (i : Interaction) : recorderInv n (addInteraction st n i) := by
  obtain ⟨h1, h2, h3, h4⟩ := h
  obtain ⟨hst, hmem⟩ := h3 hrec
  unfold addInteraction
  rw [if_pos hrec]
  refine ⟨?_, ?_, ?_, ?_⟩
  · rw [List.chain'_append]
    refine ⟨h1, List.chain'_singleton _, ?_⟩
    intro x hx y hy
    have hyi : { i with timestamp := n, relativeTime := n - st.startTime } = y := by
      simpa using hy
    subst hyi
    obtain ⟨hlast, hxl⟩ := List.mem_getLast?_eq_getLast hx
    have hxmem : x ∈ st.interactions := hxl ▸ List.getLast_mem hlast
    obtain ⟨hs1, hs2, hs3⟩ := hmem x hxmem
    show x.relativeTime ≤ n - st.startTime
    rw [hs3]
    exact Nat.sub_le_sub_right (hs2.trans hcn) _
  · intro j rest hj
    cases hl : st.interactions with
    | nil => exact absurd hl (h4 hrec)
    | cons a t =>
      rw [hl] at hj
      simp only [List.cons_append, List.cons.injEq] at hj
      exact hj.1 ▸ h2 a t hl
  · intro _
    refine ⟨hst.trans hcn, ?_⟩
    intro j hj
    rcases List.mem_append.mp hj with hjold | hjnew
    · obtain ⟨a1, a2, a3⟩ := hmem j hjold
      exact ⟨a1, a2.trans hcn, a3⟩
    · have hji : j = { i with timestamp := n, relativeTime := n - st.startTime } := by
        simpa using hjnew
      subst hji
      exact ⟨hst.trans hcn, Nat.le_refl n, rfl⟩
  · intro _
    simp

theorem stepRecorder_inv {c n : Nat} {st : RecorderState} (h : recorderInv c st)
    (ev : RecEvent) (hev : ev.clock = some n) (hcn : c ≤ n) :
    recorderInv n (stepRecorder st ev) := by
  cases ev with
  | start now url =>
    have hnow : now = n := by simpa [RecEvent.clock] using hev
    subst hnow
    show recorderInv now (startRecording st now url)
    unfold startRecording
    by_cases hrec : st.isRecording = true
    · rw [if_pos hrec]
      exact recorderInv_mono hcn h
    · rw [if_neg hrec]
      unfold addInteraction
      refine ⟨?_, ?_, ?_, ?_⟩ <;> simp [List.chain'_singleton]
  | stop => simp [RecEvent.clock] at hev
  | click now t cx cy =>
    have hnow : now = n := by simpa [RecEvent.clock] using hev
    subst hnow
    show recorderInv now (stepRecorder st (.click now t cx cy))
    simp only [stepRecorder]
    by_cases hrec : st.isRecording = true
    · rw [if_pos hrec]
      exact addInteraction_inv h hcn hrec _
    · rw [if_neg hrec]
      exact recorderInv_mono hcn h
  | input now t =>
    have hnow : now = n := by simpa [RecEvent.clock] using hev
    subst hnow
    simp only [stepRecorder]
    by_cases hrec : st.isRecording = true
    · rw [if_pos hrec]
      unfold inputHandler
      by_cases hpw : t.inputType = "password"
      · rw [if_pos hpw]
        exact addInteraction_inv h hcn hrec _
      · rw [if_neg hpw]
        exact addInteraction_inv h hcn hrec _
    · rw [if_neg hrec]
      exact recorderInv_mono hcn h
  | submit now t =>
    have hnow : now = n := by simpa [RecEvent.clock] using hev
    subst hnow
    simp only [stepRecorder]
    by_cases hrec : st.isRecording = true
    · rw [if_pos hrec]
      exact addInteraction_inv h hcn hrec _
    · rw [if_neg hrec]
      exact recorderInv_mono hcn h
  | scroll now sx sy =>
    have hnow : now = n := by simpa [RecEvent.clock] using hev
    subst hnow
    simp only [stepRecorder]
    by_cases hrec : st.isRecording = true
    · rw [if_pos hrec]
      exact addInteraction_inv h hcn hrec _
    · rw [if_neg hrec]
      exact recorderInv_mono hcn h
  | popstate now url =>
    have hnow : now = n := by simpa [RecEvent.clock] using hev
    subst hnow
    simp only [stepRecorder]
    by_cases hrec : st.isRecording = true
    · rw [if_pos hrec]
      unfold navigationHandler
      by_cases hch : url ≠ st.currentUrl
      · rw [if_pos hch]
        have h' : recorderInv c { st with currentUrl := url } := h
        exact addInteraction_inv h' hcn hrec _
      · rw [if_neg hch]
        exact recorderInv_mono hcn h
    · rw [if_neg hrec]
      exact recorderInv_mono hcn h
  | keydown now k t =>
    have hnow : now = n := by simpa [RecEvent.clock] using hev
    subst hnow
    simp only [stepRecorder]
    by_cases hrec : st.isRecording = true
    · rw [if_pos hrec]
      unfold keyHandler
      by_cases hk : (k = "Enter" || k = "Tab" || k = "Escape") = true
      · rw [if_pos hk]
        exact addInteraction_inv h hcn hrec _
      · rw [if_neg hk]
        exact recorderInv_mono hcn h
    · rw [if_neg hrec]
      exact recorderInv_mono hcn h

theorem stepRecorder_inv_stop {c : Nat} {st : RecorderState}
    (h : recorderInv c st) : recorderInv c (stepRecorder st .stop) := by
  obtain ⟨h1, h2, h3, h4⟩ := h
  show recorderInv c (stopRecording st)
  unfold stopRecording
  by_cases hrec : st.isRecording = true
  · rw [if_pos hrec]
    exact ⟨h1, h2, by simp, by simp⟩
  · rw [if_neg hrec]
    exact ⟨h1, h2, h3, h4⟩

theorem runRecorder_inv (l : List RecEvent) :
    ∀ (c : Nat) (st : RecorderState), recorderInv c st → clocksMono c l →
      ∃ c', recorderInv c' (runRecorder st l) := by
  induction l with
  | nil => exact fun c st h _ => ⟨c, h⟩
  | cons ev rest ih =>
    intro c st hinv hm
    cases hev : ev.clock with
    | none =>
      have hm' : clocksMono c rest := by
        simpa [clocksMono, hev] using hm
      have hstop : ev = .stop := by
        cases ev <;> simp [RecEvent.clock] at hev ⊢
      subst hstop
      exact ih c (stepRecorder st .stop) (stepRecorder_inv_stop hinv) hm'
    | some n =>
      have hm' : c ≤ n ∧ clocksMono n rest := by
        simpa [clocksMono, hev] using hm
      exact ih n (stepRecorder st ev)
        (stepRecorder_inv hinv ev hev hm'.1) hm'.2

/-- **C8**: for every sequence of capture operations whose clock readings are
non-decreasing, the resulting buffer has non-decreasing `relativeTime`, and
when nonempty its first interaction is the `navigation` recorded at session
start (relative time 0). -/
theorem c8_trace_invariants (locationHref : String) (l : List RecEvent)
    (h : clocksMono 0 l) :
    List.Chain' (fun a b : Interaction => a.relativeTime ≤ b.relativeTime)
      (runRecorder (initRecorder locationHref) l).interactions ∧
    ∀ i rest, (runRecorder (initRecorder locationHref) l).interactions =
        i :: rest → i.action = "navigation" ∧ i.relativeTime = 0 := by
  have hinit : recorderInv 0 (initRecorder locationHref) := by
    refine ⟨?_, ?_, ?_, ?_⟩ <;> simp [initRecorder]
  obtain ⟨c', hinv⟩ := runRecorder_inv l 0 (initRecorder locationHref) hinit h
  exact ⟨hinv.1, hinv.2.1⟩

/-- **C8** witness: a concrete start / type / scroll / stop run with
increasing clock readings. -/
theorem c8_witness :
    List.Chain' (fun a b : Interaction => a.relativeTime ≤ b.relativeTime)
      (runRecorder (initRecorder "https://a")
        [.start 100 "https://a",
         .input 150 (Element.mk "INPUT" "q" "" "" "" "" "" "" "text" "hi" 1 none),
         .scroll 220 0 80,
         .stop]).interactions :=
  (c8_trace_invariants "https://a"
    [.start 100 "https://a",
     .input 150 (Element.mk "INPUT" "q" "" "" "" "" "" "" "text" "hi" 1 none),
     .scroll 220 0 80,
     .stop]
    (by simp [clocksMono, RecEvent.clock])).1

/-! ## C10: id selectors defeat field-name recovery -/

theorem jsIncludes_mem {hay needle : String} (h : jsIncludes hay needle = true)
    {c : Char} (hc : c ∈ needle.data) : c ∈ hay.data := by
  obtain ⟨a, b, hab⟩ := (hasSubChars_iff needle.data hay.data).mp h
  rw [hab]
  simp [hc]

theorem generateSelector_id (e : Element) (hid : e.id ≠ "") :
    generateSelector e = "#" ++ e.id := by
  cases e with
  | mk tag id testid nameAttr className aria ph tx it v ci parent =>
    rw [generateSelector.eq_def]
    dsimp only
    unfold selectorChain
    simp only [Element.id] at hid ⊢
    rw [if_pos hid]

theorem extractFieldName_id_selector (id : String)
    (hq : ('=' : Char) ∉ id.data) : extractFieldName ("#" ++ id) = "field" := by
  have hn : jsIncludes ("#" ++ id) "name=" = false := by
    cases hni : jsIncludes ("#" ++ id) "name=" with
    | false => rfl
    | true =>
      have hmem : ('=' : Char) ∈ ("#" ++ id).data :=
        jsIncludes_mem hni (by decide)
      rw [String.data_append] at hmem
      simp only [List.mem_append] at hmem
      rcases hmem with h1 | h2
      · exact absurd h1 (by decide)
      · exact absurd h2 hq
  have hi : jsIncludes ("#" ++ id) "id=" = false := by
    cases hni : jsIncludes ("#" ++ id) "id=" with
    | false => rfl
    | true =>
      have hmem : ('=' : Char) ∈ ("#" ++ id).data :=
        jsIncludes_mem hni (by decide)
      rw [String.data_append] at hmem
      simp only [List.mem_append] at hmem
      rcases hmem with h1 | h2
      · exact absurd h1 (by decide)
      · exact absurd h2 hq
  unfold extractFieldName
  rw [hn, hi]
  simp

/-- **C10**: the selector resolver maps any element with a nonempty id to the
id selector `#<id>`, and `extractFieldName` cannot recover a field name from
that form (it only matches literal `name="..."`/`id="..."` fragments), so it
falls back to the generic placeholder `field`; consequently a trace with two
`Type` interactions on distinct id-selected inputs yields a single parameter
named `field` — the first one — followed by the injected configuration
parameters. -/
theorem c10_id_selector_field_collision (e₁ e₂ : Element) (t₁ t₂ : String)
    (h₁ : e₁.id ≠ "") (h₂ : e₂.id ≠ "")
    (hq₁ : ('=' : Char) ∉ e₁.id.data) (hq₂ : ('=' : Char) ∉ e₂.id.data)
    (ht₁ : t₁ ≠ "") (ht₁s : t₁ ≠ "[PASSWORD]")
    (ht₂ : t₂ ≠ "") (ht₂s : t₂ ≠ "[PASSWORD]") :
    generateSelector e₁ = "#" ++ e₁.id ∧
    extractFieldName (generateSelector e₁) = "field" ∧
    (typeParam (generateSelector e₁) t₁ none).name = "field" ∧
    extractAPIParameters
        [{ action := "type", selector := some (generateSelector e₁)
           text := some t₁ },
         { action := "type", selector := some (generateSelector e₂)
           text := some t₂ }] =
      [typeParam (generateSelector e₁) t₁ none, headlessParam, timeoutParam] := by
  have hs₁ := generateSelector_id e₁ h₁
  have hs₂ := generateSelector_id e₂ h₂
  have hf₁ : extractFieldName (generateSelector e₁) = "field" := by
    rw [hs₁]
    exact extractFieldName_id_selector e₁.id hq₁
  have hf₂ : extractFieldName (generateSelector e₂) = "field" := by
    rw [hs₂]
    exact extractFieldName_id_selector e₂.id hq₂
  have hn₁ : (typeParam (generateSelector e₁) t₁ none).name = "field" := by
    simp [typeParam, hf₁]
  have hn₂ : (typeParam (generateSelector e₂) t₂ none).name = "field" := by
    simp [typeParam, hf₂]
  refine ⟨hs₁, hf₁, hn₁, ?_⟩
  unfold extractAPIParameters deduplicateParameters
  have hip₁ : interactionParams
      { action := "type", selector := some (generateSelector e₁)
        text := some t₁ } = [typeParam (generateSelector e₁) t₁ none] := by
    simp [interactionParams, jsShow, ht₁, ht₁s]
  have hip₂ : interactionParams
      { action := "type", selector := some (generateSelector e₂)
        text := some t₂ } = [typeParam (generateSelector e₂) t₂ none] := by
    simp [interactionParams, jsShow, ht₂, ht₂s]
  rw [List.flatMap_cons, List.flatMap_cons, List.flatMap_nil, hip₁, hip₂]
  simp [dedupParamsAux, hn₁, hn₂, headlessParam, timeoutParam]

/-- **C10** witness: two concrete id-selected inputs; the resolver yields
`#user` and field-name extraction degrades to `field`. -/
theorem c10_witness :
    generateSelector (Element.mk "INPUT" "user" "" "" "" "" "" "" "text" ""
      1 none) = "#user" ∧
    extractFieldName (generateSelector
      (Element.mk "INPUT" "user" "" "" "" "" "" "" "text" "" 1 none)) =
      "field" := by
  have h := c10_id_selector_field_collision
    (Element.mk "INPUT" "user" "" "" "" "" "" "" "text" "" 1 none)
    (Element.mk "INPUT" "city" "" "" "" "" "" "" "text" "" 1 none)
    "alice" "berlin" (by decide) (by decide) (by decide) (by decide)
    (by decide) (by decide) (by decide) (by decide)
  exact ⟨h.1.trans (by decide), h.2.1⟩

end ApiGen
